import Mathlib

/-!
Shallow embedding of `src/sequencer/src/api/data_source.rs` from the
espresso-sequencer repository, together with models of the behaviour the
file's trait declarations contract for (where the implementing code lives
outside this file, the model follows the specification's words and is
marked as such in its doc comment).
-/

namespace DataSource

/-- A peer query-service URL (`tide_disco::Url`), kept opaque. -/
structure Url where
  addr : String
deriving DecidableEq, Repr

/-- A static protocol version (`StaticVersionType`), kept opaque. -/
structure Version where
  major : Nat
  minor : Nat
deriving DecidableEq, Repr

/-- One peer fetch strategy: `QueryServiceProvider::new(peer, bind_version)`
wraps a peer URL together with the protocol version used to address it. -/
structure QueryServiceProvider where
  peer : Url
  bind_version : Version
deriving DecidableEq, Repr

/-- Constructor mirroring `QueryServiceProvider::new`. -/
def QueryServiceProvider.new (peer : Url) (bind_version : Version) :
    QueryServiceProvider :=
  ⟨peer, bind_version⟩

/-- The `Provider` type alias: `AnyProvider<SeqTypes>`, an ordered list of
peer fetch strategies. -/
structure AnyProvider where
  providers : List QueryServiceProvider
deriving DecidableEq, Repr

/-- `AnyProvider::default()`: a provider with no peer strategies. -/
def AnyProvider.default : AnyProvider := ⟨[]⟩

/-- Modelled from the spec: `AnyProvider::with_provider` registers one more
independent fetch strategy; strategies are tried in the order supplied, so
registration appends at the end of the ordered list. -/
def AnyProvider.with_provider (p : AnyProvider) (q : QueryServiceProvider) :
    AnyProvider :=
  ⟨p.providers ++ [q]⟩

/-- The `provider` function of `data_source.rs`: starting from the default
(empty) provider, fold over the peer URLs in order, wrapping each as a
`QueryServiceProvider` with the single `bind_version` argument. -/
def provider (peers : List Url) (bind_version : Version) : AnyProvider :=
  peers.foldl
    (fun acc peer => acc.with_provider (QueryServiceProvider.new peer bind_version))
    AnyProvider.default

/-- Modelled from the spec: resolution policy of the Missing-Data Provider
over an ordered strategy list.  `respond q` is the verifiably correct
answer obtained from strategy `q`, if any (peer errors and verification
failures both yield `none`).  Peers are tried in order; the first verified
answer satisfies the request; an exhausted list surfaces the original
not-found condition (`none`). -/
def fetchList {α : Type} (respond : QueryServiceProvider → Option α) :
    List QueryServiceProvider → Option α
  | [] => none
  | q :: rest =>
    match respond q with
    | some a => some a
    | none => fetchList respond rest

/-- Modelled from the spec: a fetch through the provider resolves against
its strategies in order. -/
def AnyProvider.fetch {α : Type} (p : AnyProvider)
    (respond : QueryServiceProvider → Option α) : Option α :=
  fetchList respond p.providers

/-- The construction-failure error of the Storage Capability Contract
(`StorageInitError`): the backend cannot be opened. -/
inductive StorageInitError where
  | cannotOpen : StorageInitError
deriving DecidableEq, Repr

/-- The content of one Merkle authentication path
(`MerklePath<S::Entry, S::Key, S::T>`), kept opaque. -/
structure MerklePathContent where
  nodes : List Nat
deriving DecidableEq, Repr

/-- A Merklized-state coordinate: the tree version (block height) paired
with the traversal path identifying the entry's position. -/
structure Coord where
  block_number : Nat
  traversal_path : List Nat
deriving DecidableEq, Repr

/-- The Merklized-state portion of a backend's persisted state: an
association of coordinates to stored authentication paths. -/
def StateStore : Type := List (Coord × MerklePathContent)

instance : DecidableEq StateStore := by
  unfold StateStore
  infer_instance

/-- Modelled from the spec: `SequencerDataSource::store_state` (implemented
by each backend outside this file) persists the authentication path for its
coordinate so that the coordinate holds at most one authoritative record:
re-storing a coordinate is an explicit overwrite, never a silent
duplicate. -/
def store_state (s : StateStore) (path : MerklePathContent)
    (traversal_path : List Nat) (block_number : Nat) : StateStore :=
  (⟨block_number, traversal_path⟩, path) ::
    s.filter (fun e => e.1 ≠ Coord.mk block_number traversal_path)

/-- Retrieval of the stored authentication path at a coordinate (the read
side of the Merklized-state storage contract). -/
def retrieve_state (s : StateStore) (traversal_path : List Nat)
    (block_number : Nat) : Option MerklePathContent :=
  (s.find? (fun e => e.1 = Coord.mk block_number traversal_path)).map Prod.snd

/-- The number of records a store holds for one coordinate. -/
def coordCount (s : StateStore) (traversal_path : List Nat)
    (block_number : Nat) : Nat :=
  (s.filter (fun e => e.1 = Coord.mk block_number traversal_path)).length

/-- Modelled from the spec: the persisted world a backend opens against —
previously persisted state plus whether the backend can be opened at all
(corrupt on-disk state, unreachable connection target, incompatible schema
version all make it unopenable). -/
structure BackendWorld where
  persisted : StateStore
  openable : Bool
deriving DecidableEq

/-- A ready-to-serve data-source instance as produced by `create`: the
state it serves, together with the Missing-Data Provider it was wired
with. -/
structure DataSourceInstance where
  state : StateStore
  fetch_provider : AnyProvider
deriving DecidableEq

/-- Modelled from the spec: `SequencerDataSource::create(opt, provider,
reset)` (implemented by each backend outside this file) — if `reset` is
set, previously persisted state is discarded before initialization; the
backend then either opens, yielding a ready-to-serve instance, or fails
with a `StorageInitError`. -/
def create (w : BackendWorld) (prov : AnyProvider) (reset : Bool) :
    Except StorageInitError DataSourceInstance :=
  let persisted := if reset then [] else w.persisted
  if w.openable then
    Except.ok ⟨persisted, prov⟩
  else
    Except.error StorageInitError.cannotOpen

/-- The shared query-module toggles (`options::Query`), kept opaque. -/
structure Query where
  peers : List Url
deriving DecidableEq, Repr

/-- Backend-specific settings of the SQL engine
(`persistence::sql::Options`), kept opaque. -/
structure SqlOptions where
  uri : String
deriving DecidableEq, Repr

/-- Backend-specific settings of the filesystem engine
(`persistence::fs::Options`), kept opaque. -/
structure FsOptions where
  path : List String
deriving DecidableEq, Repr

/-- The query-module wiring held by the composed service configuration:
absent, SQL-backed, or filesystem-backed, each carrying the shared query
toggles and the engine's own settings. -/
inductive QueryModule where
  | none : QueryModule
  | sql : Query → SqlOptions → QueryModule
  | fs : Query → FsOptions → QueryModule
deriving DecidableEq, Repr

/-- The composed service configuration (`options::Options`): a
query-module slot plus the other configuration fields, which the backend
selector must leave untouched.  The other fields are kept opaque. -/
structure Options where
  http_port : Nat
  submit : Bool
  status : Bool
  state : Bool
  query_module : QueryModule
deriving DecidableEq, Repr

/-- Modelled from the spec: `Options::query_sql` augments the service
configuration with the SQL query module, altering no other field. -/
def Options.query_sql (o : Options) (q : Query) (s : SqlOptions) : Options :=
  { o with query_module := QueryModule.sql q s }

/-- Modelled from the spec: `Options::query_fs` augments the service
configuration with the filesystem query module, altering no other
field. -/
def Options.query_fs (o : Options) (q : Query) (s : FsOptions) : Options :=
  { o with query_module := QueryModule.fs q s }

/-- `impl DataSourceOptions for persistence::sql::Options`:
`enable_query_module` delegates to `opt.query_sql(query, self.clone())`. -/
def SqlOptions.enable_query_module (self : SqlOptions) (opt : Options)
    (query : Query) : Options :=
  opt.query_sql query self

/-- `impl DataSourceOptions for persistence::fs::Options`:
`enable_query_module` delegates to `opt.query_fs(query, self.clone())`. -/
def FsOptions.enable_query_module (self : FsOptions) (opt : Options)
    (query : Query) : Options :=
  opt.query_fs query self

/-- The backend-specific configuration types that implement
`DataSourceOptions`. -/
inductive OptionsKind where
  | sqlOptions : OptionsKind
  | fsOptions : OptionsKind
deriving DecidableEq, Repr

/-- The storage-engine implementations that implement
`SequencerDataSource`. -/
inductive DataSourceKind where
  | sqlDataSource : DataSourceKind
  | fsDataSource : DataSourceKind
deriving DecidableEq, Repr

/-- The associated type `DataSourceOptions::DataSource`: SQL options name
the SQL data source, filesystem options name the filesystem data
source. -/
def DataSourceOptions.dataSource : OptionsKind → DataSourceKind
  | OptionsKind.sqlOptions => DataSourceKind.sqlDataSource
  | OptionsKind.fsOptions => DataSourceKind.fsDataSource

/-- The associated type `SequencerDataSource::Options`: each data source
names its own options type (the bound `DataSourceOptions<DataSource =
Self>` forces the association back). -/
def SequencerDataSource.optionsType : DataSourceKind → OptionsKind
  | DataSourceKind.sqlDataSource => OptionsKind.sqlOptions
  | DataSourceKind.fsDataSource => OptionsKind.fsOptions

/-- A block of the chain, kept opaque. -/
structure Block where
  height : Nat
  payload : List Nat
deriving DecidableEq, Repr

/-- Modelled from the spec: the availability-reads capability group
(`AvailabilityDataSource<SeqTypes>`) — retrieve blocks and related records
by height, over a data source of type `D`. -/
structure AvailabilityDataSource (D : Type) where
  get_block : D → Nat → Option Block

/-- Modelled from the spec: the node-status capability group
(`NodeDataSource<SeqTypes>`) — operational node metrics such as the current
block height. -/
structure NodeDataSource (D : Type) where
  block_height : D → Nat

/-- Modelled from the spec: the network-status capability group
(`StatusDataSource`) — sync progress and other operational metrics. -/
structure StatusDataSource (D : Type) where
  sync_progress : D → Nat

/-- Modelled from the spec: the update-ingestion capability group
(`UpdateDataSource<SeqTypes>`) — accept newly decided consensus output and
persist it. -/
structure UpdateDataSource (D : Type) where
  ingest : D → Block → D

/-- Modelled from the spec: the versioned update/commit capability group
(`VersionedDataSource`) — apply pending changes atomically, exposing a
stable version after commit. -/
structure VersionedDataSource (D : Type) where
  commit : D → D
  revert : D → D

/-- The Storage Capability Contract (`SequencerDataSource`): a bundle a
backend `D` satisfies only by providing every supertrait capability —
availability reads, node reads, status reads, ingestion and versioned
commit — together with the associated options type and the `create` and
`store_state` methods declared in `data_source.rs`. -/
structure SequencerDataSource (D : Type) where
  availability : AvailabilityDataSource D
  node : NodeDataSource D
  status : StatusDataSource D
  update : UpdateDataSource D
  versioned : VersionedDataSource D
  options_kind : OptionsKind
  create : BackendWorld → AnyProvider → Bool → Except StorageInitError D
  store_state : D → MerklePathContent → List Nat → Nat → D

/-- A validated consensus state snapshot (`ValidatedState`), kept
opaque. -/
structure ValidatedState where
  commitment : Nat
deriving DecidableEq, Repr

/-- The node's signature over a state commitment
(`StateSignatureRequestBody`), kept opaque. -/
structure StateSignatureRequestBody where
  signature : Nat
deriving DecidableEq, Repr

/-- Modelled from the spec: the consensus-owned state the Consensus State
View reads — the single latest decided snapshot plus the undecided
snapshots consensus still holds, keyed by view number (views already
decided, discarded as stale, or never started are simply absent). -/
structure ConsensusState where
  decided : ValidatedState
  undecided : List (Nat × ValidatedState)
deriving DecidableEq, Repr

/-- Modelled from the spec: `LocalStateDataSource::get_decided_state`
returns the latest finalized snapshot; the read is stated in state-passing
form to record that it leaves consensus state untouched. -/
def get_decided_state (s : ConsensusState) :
    ValidatedState × ConsensusState :=
  (s.decided, s)

/-- Modelled from the spec: `LocalStateDataSource::get_undecided_state`
returns the snapshot for view `view` if consensus still holds one, and the
empty result otherwise; stated in state-passing form to record that it
leaves consensus state untouched. -/
def get_undecided_state (s : ConsensusState) (view : Nat) :
    Option ValidatedState × ConsensusState :=
  (s.undecided.lookup view, s)

/-- Modelled from the spec: the per-height state-commitment signatures the
node has produced and retained. -/
structure SignatureState where
  signatures : List (Nat × StateSignatureRequestBody)
deriving DecidableEq, Repr

/-- Modelled from the spec:
`StateSignatureDataSource::get_state_signature(height)` returns the node's
signature over the state commitment at `height`, or the empty result if
the node has not yet produced or retained one; stated in state-passing
form to record that it leaves the signature store untouched. -/
def get_state_signature (s : SignatureState) (height : Nat) :
    Option StateSignatureRequestBody × SignatureState :=
  (s.signatures.lookup height, s)

end DataSource

namespace DataSource

/-- Unfolding the `provider` fold: starting from any accumulator, the
wrapped strategies are appended in the order of the peer list. -/
theorem provider_foldl_providers (peers : List Url) (v : Version)
    (acc : AnyProvider) :
    (peers.foldl
        (fun a p => a.with_provider (QueryServiceProvider.new p v)) acc).providers
      = acc.providers ++ peers.map (fun u => QueryServiceProvider.new u v) := by
  induction peers generalizing acc with
  | nil =>
    rw [List.foldl_nil, List.map_nil, List.append_nil]
  | cons p rest ih =>
    rw [List.foldl_cons, List.map_cons, ih, AnyProvider.with_provider]
    simp

/-- The provider built from a peer list holds exactly the wrapped peers, in
order. -/
theorem provider_providers (peers : List Url) (v : Version) :
    (provider peers v).providers
      = peers.map (fun u => QueryServiceProvider.new u v) := by
  simpa [AnyProvider.default] using
    provider_foldl_providers peers v AnyProvider.default

/-- A fetch over strategies that all fail resolves to the not-found
result. -/
theorem fetchList_eq_none {α : Type} (respond : QueryServiceProvider → Option α)
    (l : List QueryServiceProvider) (h : ∀ q ∈ l, respond q = none) :
    fetchList respond l = none := by
  induction l with
  | nil => rfl
  | cons q rest ih =>
    have hq : respond q = none := h q (List.mem_cons_self q rest)
    simp only [fetchList, hq]
    exact ih fun r hr => h r (List.mem_cons_of_mem q hr)

/-- The first strategy with a verified answer settles the fetch. -/
theorem fetchList_first_success {α : Type}
    (respond : QueryServiceProvider → Option α)
    (pre : List QueryServiceProvider) (q : QueryServiceProvider)
    (post : List QueryServiceProvider) (a : α)
    (hpre : ∀ r ∈ pre, respond r = none) (hq : respond q = some a) :
    fetchList respond (pre ++ q :: post) = some a := by
  induction pre with
  | nil => simp [fetchList, hq]
  | cons r rest ih =>
    have hr : respond r = none := hpre r (List.mem_cons_self r rest)
    simp only [List.cons_append, fetchList, hr]
    exact ih fun s hs => hpre s (List.mem_cons_of_mem r hs)

end DataSource

namespace DataSource

/-- C1: `provider` wraps each peer URL as an independent fetch strategy,
composed in exactly the order supplied; on a local miss the strategies are
tried in that order, the first verified answer satisfies the request, the
not-found condition surfaces once the list is exhausted, and an empty peer
list yields a provider with no peer strategies. -/
theorem claim_C1_provider_order_and_resolution {α : Type} (peers : List Url)
    (v : Version) (respond : QueryServiceProvider → Option α) :
    (provider peers v).providers
        = peers.map (fun u => QueryServiceProvider.new u v)
      ∧ (provider [] v).providers = []
      ∧ ((∀ q ∈ (provider peers v).providers, respond q = none) →
          (provider peers v).fetch respond = none)
      ∧ (∀ pre u post a, peers = pre ++ u :: post →
          (∀ w ∈ pre, respond (QueryServiceProvider.new w v) = none) →
          respond (QueryServiceProvider.new u v) = some a →
          (provider peers v).fetch respond = some a) := by
  refine ⟨provider_providers peers v, by simp [provider, AnyProvider.default],
    ?_, ?_⟩
  · intro h
    exact fetchList_eq_none respond _ h
  · intro pre u post a hpeers hpre hu
    show fetchList respond (provider peers v).providers = some a
    rw [provider_providers, hpeers, List.map_append, List.map_cons]
    exact fetchList_first_success respond _ _ _ a
      (by
        intro r hr
        rcases List.mem_map.mp hr with ⟨w, hw, rfl⟩
        exact hpre w hw)
      hu

/-- Closed instance of the C1 theorem: two peers, the first failing, the
second answering; the fetch yields the second peer's answer. -/
theorem claim_C1_witness :
    (provider [Url.mk "a", Url.mk "b"] (Version.mk 0 1)).fetch
        (fun q => if q.peer = Url.mk "b" then some 7 else none) = some 7 :=
  (claim_C1_provider_order_and_resolution [Url.mk "a", Url.mk "b"]
      (Version.mk 0 1)
      (fun q => if q.peer = Url.mk "b" then some 7 else none)).2.2.2
    [Url.mk "a"] (Url.mk "b") [] 7 rfl (by decide) (by decide)

/-- C10: every peer fetch strategy held by a provider built by one call to
`provider` carries the single `bind_version` argument of that call, so
peers within one provider cannot be addressed at differing protocol
versions. -/
theorem claim_C10_uniform_bind_version (peers : List Url) (v : Version) :
    ∀ q ∈ (provider peers v).providers, q.bind_version = v := by
  intro q hq
  rw [provider_providers] at hq
  rcases List.mem_map.mp hq with ⟨u, _, rfl⟩
  rfl

/-- Closed instance of the C10 theorem at a two-peer provider. -/
theorem claim_C10_witness :
    (QueryServiceProvider.new (Url.mk "a") (Version.mk 0 1)).bind_version
      = Version.mk 0 1 :=
  claim_C10_uniform_bind_version [Url.mk "a", Url.mk "b"] (Version.mk 0 1)
    (QueryServiceProvider.new (Url.mk "a") (Version.mk 0 1)) (by decide)

/-- C2: `create` either yields a ready-to-serve instance or fails with a
`StorageInitError` when the backend cannot be opened; with the reset flag
set all previously persisted state is discarded before initialization, and
without it the persisted state is kept untouched. -/
theorem claim_C2_create_contract (w : BackendWorld) (prov : AnyProvider)
    (reset : Bool) :
    (w.openable = true →
        ∃ d, create w prov reset = Except.ok d
          ∧ (reset = true → d.state = [])
          ∧ (reset = false → d.state = w.persisted))
      ∧ (w.openable = false →
          create w prov reset = Except.error StorageInitError.cannotOpen) := by
  constructor
  · intro hopen
    refine ⟨⟨if reset then [] else w.persisted, prov⟩, ?_, ?_, ?_⟩
    · simp [create, hopen]
    · intro hreset
      simp [hreset]
    · intro hreset
      simp [hreset]
  · intro hclosed
    simp [create, hclosed]

/-- Closed instance of the C2 theorem: an openable world created with the
reset flag set yields an instance whose state is empty. -/
theorem claim_C2_witness :
    ∃ d, create (BackendWorld.mk [(Coord.mk 3 [0], MerklePathContent.mk [5])] true)
        AnyProvider.default true = Except.ok d ∧ d.state = [] := by
  rcases (claim_C2_create_contract
      (BackendWorld.mk [(Coord.mk 3 [0], MerklePathContent.mk [5])] true)
      AnyProvider.default true).1 rfl with ⟨d, hd, hreset, _⟩
  exact ⟨d, hd, hreset rfl⟩

/-- A keyed lookup over an association list misses exactly when the key is
absent from the key column. -/
theorem lookup_eq_none_of_key_absent {β : Type} (l : List (Nat × β)) (a : Nat)
    (h : a ∉ l.map Prod.fst) : l.lookup a = none := by
  induction l with
  | nil => rfl
  | cons p rest ih =>
    obtain ⟨k, b⟩ := p
    simp only [List.map_cons, List.mem_cons, not_or] at h
    obtain ⟨h1, h2⟩ := h
    simp only [List.lookup, beq_eq_false_iff_ne.mpr h1]
    exact ih h2

/-- A keyed lookup that hits returns an entry of the list at that key. -/
theorem lookup_mem_of_eq_some {β : Type} (l : List (Nat × β)) (a : Nat) (b : β)
    (h : l.lookup a = some b) : (a, b) ∈ l := by
  induction l with
  | nil => simp [List.lookup] at h
  | cons p rest ih =>
    obtain ⟨k, c⟩ := p
    by_cases hk : a = k
    · subst hk
      simp only [List.lookup, beq_self_eq_true] at h
      cases h
      exact List.mem_cons_self _ _
    · simp only [List.lookup, beq_eq_false_iff_ne.mpr hk] at h
      exact List.mem_cons_of_mem _ (ih h)

/-- A key present in the key column makes the keyed lookup hit. -/
theorem lookup_isSome_of_key_mem {β : Type} (l : List (Nat × β)) (a : Nat)
    (h : a ∈ l.map Prod.fst) : ∃ b, l.lookup a = some b := by
  induction l with
  | nil => simp at h
  | cons p rest ih =>
    obtain ⟨k, c⟩ := p
    by_cases hk : a = k
    · subst hk
      exact ⟨c, by simp [List.lookup]⟩
    · simp only [List.map_cons, List.mem_cons] at h
      rcases h with h | h
      · exact absurd h hk
      · rcases ih h with ⟨b, hb⟩
        exact ⟨b, by simp only [List.lookup, beq_eq_false_iff_ne.mpr hk]; exact hb⟩

/-- C8: `get_decided_state` always succeeds: its result type has no error
or empty case, it returns the latest finalized snapshot, and the read
leaves consensus state untouched. -/
theorem claim_C8_decided_state_total (s : ConsensusState) :
    (get_decided_state s).1 = s.decided ∧ (get_decided_state s).2 = s :=
  ⟨rfl, rfl⟩

/-- C7: `get_undecided_state` returns the snapshot held for view `v` when
consensus still holds one, returns the empty result (not an error) when
the view is decided, stale or unknown, and never mutates consensus
state. -/
theorem claim_C7_undecided_state (s : ConsensusState) (v : Nat) :
    (get_undecided_state s v).2 = s
      ∧ (v ∉ s.undecided.map Prod.fst → (get_undecided_state s v).1 = none)
      ∧ (v ∈ s.undecided.map Prod.fst →
          ∃ x, (get_undecided_state s v).1 = some x ∧ (v, x) ∈ s.undecided) := by
  refine ⟨rfl, ?_, ?_⟩
  · intro h
    exact lookup_eq_none_of_key_absent s.undecided v h
  · intro h
    rcases lookup_isSome_of_key_mem s.undecided v h with ⟨x, hx⟩
    exact ⟨x, hx, lookup_mem_of_eq_some s.undecided v x hx⟩

/-- Closed instance of the C7 theorem: a held view returns its snapshot, a
decided or unknown view returns the empty result. -/
theorem claim_C7_witness :
    (get_undecided_state (ConsensusState.mk (ValidatedState.mk 0)
        [(5, ValidatedState.mk 9)]) 4).1 = none :=
  (claim_C7_undecided_state
      (ConsensusState.mk (ValidatedState.mk 0) [(5, ValidatedState.mk 9)])
      4).2.1 (by decide)

/-- C9: `get_state_signature` returns the node's retained signature for a
height, or the empty result (not an error) when none has been produced or
retained, and never mutates the signature store. -/
theorem claim_C9_state_signature (s : SignatureState) (height : Nat) :
    (get_state_signature s height).2 = s
      ∧ (height ∉ s.signatures.map Prod.fst →
          (get_state_signature s height).1 = none)
      ∧ (height ∈ s.signatures.map Prod.fst →
          ∃ b, (get_state_signature s height).1 = some b
            ∧ (height, b) ∈ s.signatures) := by
  refine ⟨rfl, ?_, ?_⟩
  · intro h
    exact lookup_eq_none_of_key_absent s.signatures height h
  · intro h
    rcases lookup_isSome_of_key_mem s.signatures height h with ⟨b, hb⟩
    exact ⟨b, hb, lookup_mem_of_eq_some s.signatures height b hb⟩

/-- Closed instance of the C9 theorem: a height with no retained signature
yields the empty result. -/
theorem claim_C9_witness :
    (get_state_signature (SignatureState.mk
        [(2, StateSignatureRequestBody.mk 11)]) 3).1 = none :=
  (claim_C9_state_signature
      (SignatureState.mk [(2, StateSignatureRequestBody.mk 11)]) 3).2.1
    (by decide)

/-- C3: any backend satisfying the Storage Capability Contract necessarily
provides every capability group at once — availability reads, node and
network status reads, versioned update/commit, update ingestion and
merklized state path storage — so no group can be omitted. -/
theorem claim_C3_capability_bundle (D : Type) (s : SequencerDataSource D) :
    Nonempty (AvailabilityDataSource D)
      ∧ Nonempty (NodeDataSource D)
      ∧ Nonempty (StatusDataSource D)
      ∧ Nonempty (VersionedDataSource D)
      ∧ Nonempty (UpdateDataSource D)
      ∧ ∃ f : D → MerklePathContent → List Nat → Nat → D, f = s.store_state :=
  ⟨⟨s.availability⟩, ⟨s.node⟩, ⟨s.status⟩, ⟨s.versioned⟩, ⟨s.update⟩,
    ⟨s.store_state, rfl⟩⟩

/-- Closed instance of the C3 theorem over a trivial in-memory backend. -/
theorem claim_C3_witness :
    Nonempty (AvailabilityDataSource Unit)
      ∧ Nonempty (NodeDataSource Unit)
      ∧ Nonempty (StatusDataSource Unit)
      ∧ Nonempty (VersionedDataSource Unit)
      ∧ Nonempty (UpdateDataSource Unit)
      ∧ ∃ f : Unit → MerklePathContent → List Nat → Nat → Unit,
          f = fun d _ _ _ => d :=
  claim_C3_capability_bundle Unit
    ⟨⟨fun _ _ => none⟩, ⟨fun _ => 0⟩, ⟨fun _ => 0⟩, ⟨fun d _ => d⟩, ⟨id, id⟩,
      OptionsKind.sqlOptions, fun _ _ _ => Except.ok (), fun d _ _ _ => d⟩

/-- C5: for both backends, `enable_query_module` returns the service
configuration augmented only with the backend's query module, every other
configuration field unchanged and the backend settings embedded
unmodified; the embedding is pure, so no external state is touched. -/
theorem claim_C5_enable_query_module (sqlOpt : SqlOptions) (fsOpt : FsOptions)
    (opt : Options) (q : Query) :
    (sqlOpt.enable_query_module opt q).query_module = QueryModule.sql q sqlOpt
      ∧ (sqlOpt.enable_query_module opt q).http_port = opt.http_port
      ∧ (sqlOpt.enable_query_module opt q).submit = opt.submit
      ∧ (sqlOpt.enable_query_module opt q).status = opt.status
      ∧ (sqlOpt.enable_query_module opt q).state = opt.state
      ∧ (fsOpt.enable_query_module opt q).query_module = QueryModule.fs q fsOpt
      ∧ (fsOpt.enable_query_module opt q).http_port = opt.http_port
      ∧ (fsOpt.enable_query_module opt q).submit = opt.submit
      ∧ (fsOpt.enable_query_module opt q).status = opt.status
      ∧ (fsOpt.enable_query_module opt q).state = opt.state :=
  ⟨rfl, rfl, rfl, rfl, rfl, rfl, rfl, rfl, rfl, rfl⟩

/-- C6: backend selection is one-to-one — SQL options determine the SQL
data source, filesystem options the filesystem data source, each data
source names its own options type back, and the two associations are
mutually inverse (a bijection), so exactly one engine is determined by a
configuration. -/
theorem claim_C6_backend_selection_bijection :
    DataSourceOptions.dataSource OptionsKind.sqlOptions
        = DataSourceKind.sqlDataSource
      ∧ DataSourceOptions.dataSource OptionsKind.fsOptions
        = DataSourceKind.fsDataSource
      ∧ (∀ o, SequencerDataSource.optionsType (DataSourceOptions.dataSource o)
          = o)
      ∧ (∀ d, DataSourceOptions.dataSource (SequencerDataSource.optionsType d)
          = d)
      ∧ Function.Bijective DataSourceOptions.dataSource := by
  refine ⟨rfl, rfl, ?_, ?_, ?_⟩
  · intro o
    cases o <;> rfl
  · intro d
    cases d <;> rfl
  · exact Function.bijective_iff_has_inverse.mpr
      ⟨SequencerDataSource.optionsType,
        fun o => by cases o <;> rfl, fun d => by cases d <;> rfl⟩

/-- Filtering a freshly stored record back out of a store returns the
records away from its coordinate. -/
theorem filter_ne_cons_self (l : StateStore) (c : Coord)
    (q : MerklePathContent) :
    ((c, q) :: l.filter (fun e => e.1 ≠ c)).filter (fun e => e.1 ≠ c)
      = l.filter (fun e => e.1 ≠ c) := by
  simp [List.filter_filter]

/-- After a store, exactly the stored record sits at its coordinate. -/
theorem filter_eq_cons_self (l : StateStore) (c : Coord)
    (q : MerklePathContent) :
    ((c, q) :: l.filter (fun e => e.1 ≠ c)).filter (fun e => e.1 = c)
      = [(c, q)] := by
  simp [List.filter_filter]

/-- C4: `store_state` keeps at most one authoritative record per
(tree-version, traversal-path) coordinate — storing identical content
twice is idempotent (the store is unchanged and retrieval returns the
identical record), and re-storing different content is an explicit
overwrite that never produces a duplicate record. -/
theorem claim_C4_store_state_overwrite (s : StateStore)
    (p p2 : MerklePathContent) (tp : List Nat) (n : Nat) :
    coordCount (store_state s p tp n) tp n = 1
      ∧ store_state (store_state s p tp n) p tp n = store_state s p tp n
      ∧ retrieve_state (store_state s p tp n) tp n = some p
      ∧ retrieve_state (store_state (store_state s p tp n) p2 tp n) tp n
        = some p2
      ∧ coordCount (store_state (store_state s p tp n) p2 tp n) tp n = 1 := by
  have hover : store_state (store_state s p tp n) p2 tp n
      = (Coord.mk n tp, p2) :: s.filter (fun e => e.1 ≠ Coord.mk n tp) := by
    show (Coord.mk n tp, p2) ::
        ((Coord.mk n tp, p) ::
          s.filter (fun e => e.1 ≠ Coord.mk n tp)).filter
            (fun e => e.1 ≠ Coord.mk n tp)
      = (Coord.mk n tp, p2) :: s.filter (fun e => e.1 ≠ Coord.mk n tp)
    rw [filter_ne_cons_self]
  refine ⟨?_, ?_, ?_, ?_, ?_⟩
  · show (((Coord.mk n tp, p) ::
        s.filter (fun e => e.1 ≠ Coord.mk n tp)).filter
          (fun e => e.1 = Coord.mk n tp)).length = 1
    rw [filter_eq_cons_self]
    rfl
  · show (Coord.mk n tp, p) ::
        ((Coord.mk n tp, p) ::
          s.filter (fun e => e.1 ≠ Coord.mk n tp)).filter
            (fun e => e.1 ≠ Coord.mk n tp)
      = store_state s p tp n
    rw [filter_ne_cons_self]
    rfl
  · simp [retrieve_state, store_state, List.find?]
  · rw [hover]
    simp [retrieve_state, List.find?]
  · rw [hover]
    show (((Coord.mk n tp, p2) ::
        s.filter (fun e => e.1 ≠ Coord.mk n tp)).filter
          (fun e => e.1 = Coord.mk n tp)).length = 1
    rw [filter_eq_cons_self]
    rfl

end DataSource
